import Mathlib

/-!
Verification development for the ramjet back-office platform.

This file gives a shallow embedding, in Lean 4, of the order-approval /
stock-verification reconciliation engine, the carton lifecycle state
machine, the stocktake reconciler and the barcode allocator of the
repository (backend/app/services/stock_verification_service.py,
stock_service.py, stocktake_service.py, barcode_service.py and
backend/app/api/orders.py), together with theorems settling the stated
properties of those components.

Modelling conventions:
- database rows become Lean structures; UUID keys become Nat ids;
  SQL Integer columns become Int (counts become Nat);
- timestamps, actors and free-text notes are not modelled (no claim
  mentions them);
- the external document generator is opaque: a generated document is
  modelled by the arguments the source passes to it, so the two source
  call sites (unadjusted generate_all_forms and the adjusted-quantity
  path) stay distinguishable;
- stateful service functions become pure functions from a state to a
  new state, fallible ones return Except String (an error models the
  raised ValueError / HTTPException plus transaction rollback).
-/

namespace Ramjet

/-- Order.status values (backend/app/core/models.py, orders table). -/
inductive OrderStatus where
  | pending
  | approved
  | rejected
  | error_status
  | verified
  | works_order_generated
deriving DecidableEq

/-- StockVerification.status values (pending | confirmed | expired). -/
inductive VerStatus where
  | pending
  | confirmed
  | expired
deriving DecidableEq

/-- An opaque generated document, recorded as the arguments the source
passes to the external form generator.  `works production_qty adj ver`
is the result of generate_works_order(db, order, item,
adjusted_quantity=adj, verified_stock=ver), whose displayed production
quantity is `adj if adj is not None else item.quantity`
(form_generation_service.py line 315). -/
inductive Doc where
  | office
  | works (production_qty : Int) (adjusted_quantity : Option Int) (verified_stock : Option Int)
deriving DecidableEq

/-- One OrderLineItem row (the fields the verification engine reads). -/
structure OrderLineItem where
  id : Nat
  line_number : Nat
  product_code : Option String
  matched_product_code : Option String
  colour : Option String
  quantity : Int
  works_order_file : Option Doc
deriving DecidableEq

/-- One StockVerification row (order link kept implicit: an OrderState
holds exactly the verifications of its order). -/
structure StockVerification where
  id : Nat
  order_line_item_id : Nat
  product_code : String
  colour : String
  system_stock_quantity : Int
  verified_quantity : Option Int
  status : VerStatus
deriving DecidableEq

/-- One order with its line items and its StockVerification rows: the
state read and written by check_and_generate_works_orders. -/
structure OrderState where
  status : OrderStatus
  office_order_file : Option Doc
  line_items : List OrderLineItem
  verifications : List StockVerification
deriving DecidableEq

/-- Embeds generate_works_order (form_generation_service.py line 297):
production_qty = adjusted_quantity if adjusted_quantity is not None
else line_item.quantity. -/
def generate_works_order (item : OrderLineItem)
    (adjusted_quantity verified_stock : Option Int) : Doc :=
  Doc.works (adjusted_quantity.getD item.quantity) adjusted_quantity verified_stock

/-- Embeds generate_office_order: an opaque document built from the
order at its original quantities. -/
def generate_office_order : Doc := Doc.office

/-- Embeds generate_all_forms (form_generation_service.py line 453):
office order plus one works order per line item, generated with the
default arguments (no adjusted quantity, no verified stock). -/
def generate_all_forms (s : OrderState) : OrderState :=
  { s with
    office_order_file := some generate_office_order,
    line_items := s.line_items.map (fun item =>
      { item with works_order_file := some (generate_works_order item none none) }) }

/-- Embeds the verification_map dict of _generate_adjusted_works_orders
(stock_verification_service.py lines 217-221) read at one key:
the dict maps v.order_line_item_id to v.verified_quantity for every
confirmed verification with a non-null verified_quantity, a later
insertion overwriting an earlier one, and .get returns the last value
inserted for the key. -/
def verification_map (verifications : List StockVerification) (li_id : Nat) : Option Int :=
  verifications.foldl (fun acc v =>
    if v.status = VerStatus.confirmed ∧ v.verified_quantity.isSome ∧ v.order_line_item_id = li_id
    then v.verified_quantity else acc) none

/-- Embeds calculate_adjusted_quantity (stock_verification_service.py
line 266): max(0, ordered_qty - verified_qty). -/
def calculate_adjusted_quantity (ordered_qty verified_qty : Int) : Int :=
  max 0 (ordered_qty - verified_qty)

/-- Embeds _generate_adjusted_works_orders (stock_verification_service.py
lines 204-263): sets status to verified then works_order_generated
(the final state keeps the terminal value), writes the office order,
and for each line item with a positive adjusted quantity writes a works
order with that adjusted quantity; a line item whose adjusted quantity
is 0 is skipped (its works_order_file is left as it was). -/
def generate_adjusted_works_orders (s : OrderState) : OrderState :=
  { s with
    status := OrderStatus.works_order_generated,
    office_order_file := some generate_office_order,
    line_items := s.line_items.map (fun item =>
      let verified_qty := (verification_map s.verifications item.id).getD 0
      let adjusted_qty := calculate_adjusted_quantity item.quantity verified_qty
      if adjusted_qty = 0 then item
      else { item with
        works_order_file := some (generate_works_order item (some adjusted_qty) (some verified_qty)) }) }

/-- Embeds check_and_generate_works_orders (stock_verification_service.py
lines 159-201) for an existing order: guard on status, the (dead)
works_order_generated re-check, the per-line-item idempotency guard,
the pending-verification guard, then generation.  Returns the bool the
source returns paired with the resulting order state. -/
def check_and_generate_works_orders (s : OrderState) : Bool × OrderState :=
  if ¬ (s.status = OrderStatus.approved ∨ s.status = OrderStatus.verified) then (false, s)
  else if s.status = OrderStatus.works_order_generated then (false, s)
  else if s.line_items.any (fun li => li.works_order_file.isSome) then (false, s)
  else if (s.verifications.filter (fun v => v.status = VerStatus.pending)) ≠ [] then (false, s)
  else (true, generate_adjusted_works_orders s)

/-- Embeds confirm_verification (stock_verification_service.py lines
76-119): not-found and non-pending are errors; otherwise the
verification records the given quantity, the confirming update sets
status to confirmed, and check_and_generate_works_orders runs.
Returns the updated state and the works_order_triggered flag. -/
def confirm_verification (s : OrderState) (verification_id : Nat)
    (verified_quantity : Int) : Except String (OrderState × Bool) :=
  match s.verifications.find? (fun v => v.id == verification_id) with
  | none => Except.error "Verification not found"
  | some v =>
    if v.status ≠ VerStatus.pending then
      Except.error "Verification must be pending"
    else
      let s1 : OrderState := { s with
        verifications := s.verifications.map (fun w =>
          if w.id = verification_id then
            { w with verified_quantity := some verified_quantity, status := VerStatus.confirmed }
          else w) }
      let r := check_and_generate_works_orders s1
      Except.ok (r.2, r.1)

/-- Embeds the order-approval endpoint approve_order (orders.py lines
172-217), restricted to its state logic: require pending status and a
nonempty line-item list, set status approved, then branch on the
verification summary: total == 0 generates all forms unadjusted and
sets works_order_generated; all-confirmed re-runs the completion
check; otherwise wait.  Returns state and works_order_triggered. -/
def approve_order (s : OrderState) : Except String (OrderState × Bool) :=
  if s.status ≠ OrderStatus.pending then Except.error "Order is not pending"
  else if s.line_items = [] then Except.error "Order has no line items"
  else
    let s1 : OrderState := { s with status := OrderStatus.approved }
    let total := s1.verifications.length
    let all_confirmed :=
      (s1.verifications.filter (fun v => v.status = VerStatus.pending)).length = 0
    if total = 0 then
      Except.ok ({ generate_all_forms s1 with status := OrderStatus.works_order_generated }, true)
    else if all_confirmed then
      let r := check_and_generate_works_orders s1
      Except.ok (r.2, r.1)
    else
      Except.ok (s1, false)

/-- The order-level completion condition of spec section 4.4, written as
the spec states it: order approved or verified, no line item already
carrying works-order bytes, and no pending verification. -/
def completion_ready (s : OrderState) : Prop :=
  (s.status = OrderStatus.approved ∨ s.status = OrderStatus.verified) ∧
  (∀ li ∈ s.line_items, li.works_order_file = none) ∧
  (∀ v ∈ s.verifications, v.status ≠ VerStatus.pending)

instance (s : OrderState) : Decidable (completion_ready s) := by
  unfold completion_ready; infer_instance

/-- The stock credit of a line item as the spec words it: the recorded
verified quantity of a confirmed verification for the line item, and 0
when the line item has no verification or its verification is not
confirmed. -/
def confirmed_credit (verifications : List StockVerification) (li_id : Nat) : Int :=
  match verifications.find? (fun v => v.order_line_item_id == li_id && v.status == VerStatus.confirmed) with
  | some v => v.verified_quantity.getD 0
  | none => 0

-- ── Carton lifecycle and stocktake state ─────────────────────────────

/-- StockItem.status values (pending_scan | in_stock | picked |
scrapped | consumed). -/
inductive StockStatus where
  | pending_scan
  | in_stock
  | picked
  | scrapped
  | consumed
deriving DecidableEq

/-- One StockItem (carton) row.  Timestamps, actors and notes are not
modelled. -/
structure StockItem where
  id : Nat
  barcode_id : String
  product_code : String
  colour : String
  quantity : Int
  box_type : String
  status : StockStatus
  order_id : Option Nat
  parent_stock_item_id : Option Nat
deriving DecidableEq

/-- One StockMovement audit row (reason text, actor and timestamp not
modelled). -/
structure StockMovement where
  stock_item_id : Nat
  movement_type : String
  quantity_change : Int
  order_id : Option Nat
  stocktake_session_id : Option Nat
deriving DecidableEq

/-- StocktakeSession.status values. -/
inductive SessionStatus where
  | in_progress
  | completed
  | cancelled
deriving DecidableEq

/-- One StocktakeSession row. -/
structure StocktakeSession where
  id : Nat
  name : String
  status : SessionStatus
  total_expected : Nat
  total_scanned : Nat
  total_discrepancies : Nat
deriving DecidableEq

/-- StocktakeScan.scan_result values. -/
inductive ScanResult where
  | found
  | not_in_system
  | already_scanned
  | wrong_status
deriving DecidableEq

/-- One StocktakeScan row. -/
structure StocktakeScan where
  session_id : Nat
  barcode_scanned : String
  stock_item_id : Option Nat
  scan_result : ScanResult
deriving DecidableEq

/-- The persistent stock-side state threaded through the carton and
stocktake operations.  next_id models the id the database would assign
to the next inserted StockItem row. -/
structure StockDB where
  items : List StockItem
  movements : List StockMovement
  scans : List StocktakeScan
  sessions : List StocktakeSession
  next_id : Nat
deriving DecidableEq

-- ── Barcode allocator (barcode_service.py) ───────────────────────────

/-- QR_PREFIX constant. -/
def QR_PREFIX : String := "RJ"

/-- COLOUR_SHORT_OVERRIDES lookup table. -/
def COLOUR_SHORT_OVERRIDES : List (String × String) :=
  [("black", "BLK"), ("white", "WHT"), ("yellow", "YEL"), ("natural", "NAT"),
   ("red", "RED"), ("blue", "BLU"), ("green", "GRN"), ("grey", "GRY"),
   ("gray", "GRY"), ("orange", "ORG"), ("brown", "BRN"), ("clear", "CLR")]

/-- Lower-cases every character of a string (python str.lower on the
ASCII colour names used here). -/
def strLower (s : String) : String := String.mk (s.data.map Char.toLower)

/-- Upper-cases every character of a string (python str.upper). -/
def strUpper (s : String) : String := String.mk (s.data.map Char.toUpper)

/-- Strips leading and trailing whitespace (python str.strip). -/
def strTrim (s : String) : String :=
  String.mk (((s.data.dropWhile Char.isWhitespace).reverse.dropWhile Char.isWhitespace).reverse)

/-- First n characters of a string (python s[:n]). -/
def strTake (s : String) (n : Nat) : String := String.mk (s.data.take n)

/-- Whether the first list is an initial segment of the second
(structurally recursive, kernel-evaluable). -/
def listStarts : List Char → List Char → Bool
  | [], _ => true
  | _ :: _, [] => false
  | a :: as, b :: bs => a == b && listStarts as bs

/-- Whether p is an initial segment of s: the SQL LIKE filter
barcode_id LIKE (p ++ percent). -/
def strStarts (p s : String) : Bool := listStarts p.data s.data

/-- Splits a character list at every dash (python str.split on a
single-character separator). -/
def splitDashAux : List Char → List Char → List (List Char)
  | [], acc => [acc.reverse]
  | c :: cs, acc =>
    if c = '-' then acc.reverse :: splitDashAux cs [] else splitDashAux cs (c :: acc)

/-- python s.split("-"). -/
def splitOnDash (s : String) : List String := (splitDashAux s.data []).map String.mk

/-- python s.split("-")[-1] (split never returns an empty list). -/
def last_dash_segment (s : String) : String := ((splitOnDash s).getLast?).getD ""

/-- Digit-string value. -/
def digitsToNat (cs : List Char) : Nat := cs.foldl (fun n c => n * 10 + (c.toNat - 48)) 0

/-- python int(s) restricted to the nonnegative digit strings that the
barcode sequence segments actually are; none models the ValueError
that the source's except-clause turns into sequence 0. -/
def parseNat? (s : String) : Option Nat :=
  if s.data ≠ [] ∧ s.data.all Char.isDigit then some (digitsToNat s.data) else none

/-- Lexicographic order on character lists by code point: the order SQL
applies when taking MAX of a varchar column. -/
def listLt : List Char → List Char → Bool
  | [], [] => false
  | [], _ :: _ => true
  | _ :: _, [] => false
  | a :: as, b :: bs => if a < b then true else if b < a then false else listLt as bs

/-- Lexicographic string comparison. -/
def strLt (a b : String) : Bool := listLt a.data b.data

/-- Larger of two strings in lexicographic order. -/
def strMax (a b : String) : String := if strLt a b then b else a

/-- SQL MAX over a list of strings: none on the empty set, else the
lexicographic maximum. -/
def max_barcode : List String → Option String
  | [] => none
  | b :: bs => some (bs.foldl strMax b)

/-- Decimal digit list of a Nat (fuel-based so the kernel can
evaluate it). -/
def natDigitsAux (fuel : Nat) (n : Nat) : List Char :=
  match fuel with
  | 0 => []
  | fuel + 1 =>
    if n = 0 then [] else natDigitsAux fuel (n / 10) ++ [Char.ofNat (48 + n % 10)]

/-- Decimal digit list of a Nat. -/
def natDigits (n : Nat) : List Char :=
  if n = 0 then ['0'] else natDigitsAux (n + 1) n

/-- python f-string 03d formatting of a nonnegative sequence number:
zero-padded to a minimum width of 3, wider numbers kept whole. -/
def seq_format (n : Nat) : String :=
  let ds := natDigits n
  String.mk (List.replicate (3 - ds.length) '0' ++ ds)

/-- Embeds get_colour_short (barcode_service.py line 73). -/
def get_colour_short (colour : String) : String :=
  let normalised := strLower (strTrim colour)
  match COLOUR_SHORT_OVERRIDES.find? (fun p => p.1 == normalised) with
  | some p => p.2
  | none => strUpper (strTake (strTrim colour) 3)

/-- Embeds generate_barcode_ids (barcode_service.py lines 83-125) over
the current StockItem rows: builds the RJ-product-colour-date- prefix,
takes the SQL MAX (lexicographic) of the existing barcodes matching
the prefix via LIKE, parses the segment after the last dash as the
current maximum sequence (0 on parse failure or no match), and returns
count identifiers with the next sequence numbers, 03d-formatted.
date_str stands for production_date.strftime of YYYYMMDD, with
date.today() supplied by the caller when absent. -/
def generate_barcode_ids (items : List StockItem) (product_code colour : String)
    (count : Nat) (date_str : String) : List String :=
  let pfx := QR_PREFIX ++ "-" ++ product_code ++ "-" ++ get_colour_short colour ++ "-" ++ date_str ++ "-"
  let matching := items.filterMap (fun it =>
    if strStarts pfx it.barcode_id then some it.barcode_id else none)
  let current_max : Nat :=
    match max_barcode matching with
    | some m => (parseNat? (last_dash_segment m)).getD 0
    | none => 0
  (List.range count).map (fun i => pfx ++ seq_format (current_max + i + 1))

-- ── Carton operations (stock_service.py) ─────────────────────────────

/-- Embeds scan_in (stock_service.py lines 22-83): look up by barcode,
reject non-pending_scan statuses with distinct errors, transition to
in_stock and append a stock_in movement of +quantity. -/
def scan_in (db : StockDB) (barcode_id : String) : Except String StockDB :=
  match db.items.find? (fun it => it.barcode_id == barcode_id) with
  | none => Except.error ("Barcode not recognised: " ++ barcode_id)
  | some stock_item =>
    if stock_item.status = StockStatus.in_stock then
      Except.error "Already scanned in"
    else if stock_item.status = StockStatus.picked ∨ stock_item.status = StockStatus.scrapped ∨
        stock_item.status = StockStatus.consumed then
      Except.error "Cannot scan in - item has been picked, scrapped or consumed"
    else if stock_item.status ≠ StockStatus.pending_scan then
      Except.error "Unexpected status"
    else
      Except.ok { db with
        items := db.items.map (fun it =>
          if it.id = stock_item.id then { it with status := StockStatus.in_stock } else it),
        movements := db.movements ++
          [⟨stock_item.id, "stock_in", stock_item.quantity, none, none⟩] }

/-- Embeds scan_out (stock_service.py lines 129-193): look up by
barcode, reject non-in_stock statuses with distinct errors, transition
to picked (recording the order when given) and append a stock_out
movement of -quantity. -/
def scan_out (db : StockDB) (barcode_id : String) (order_id : Option Nat) :
    Except String StockDB :=
  match db.items.find? (fun it => it.barcode_id == barcode_id) with
  | none => Except.error ("Barcode not recognised: " ++ barcode_id)
  | some stock_item =>
    if stock_item.status = StockStatus.pending_scan then
      Except.error "Item not yet scanned in"
    else if stock_item.status = StockStatus.picked then
      Except.error "Already scanned out"
    else if stock_item.status = StockStatus.scrapped ∨ stock_item.status = StockStatus.consumed then
      Except.error "Cannot scan out - item has been scrapped or consumed"
    else if stock_item.status ≠ StockStatus.in_stock then
      Except.error "Unexpected status"
    else
      Except.ok { db with
        items := db.items.map (fun it =>
          if it.id = stock_item.id then
            { it with
              status := StockStatus.picked,
              order_id := if order_id.isSome then order_id else it.order_id }
          else it),
        movements := db.movements ++
          [⟨stock_item.id, "stock_out", -stock_item.quantity, order_id, none⟩] }

/-- Embeds adjustment (stock_service.py lines 515-571): look up by id,
require in_stock, reject a change that would take the quantity
negative, otherwise apply the change, scrap the carton when the new
quantity is 0, and append an adjustment movement of the change. -/
def adjustment (db : StockDB) (stock_item_id : Nat) (quantity_change : Int) :
    Except String StockDB :=
  match db.items.find? (fun it => it.id == stock_item_id) with
  | none => Except.error "Stock item not found"
  | some stock_item =>
    if stock_item.status ≠ StockStatus.in_stock then
      Except.error "Cannot adjust - wrong status"
    else
      let new_quantity := stock_item.quantity + quantity_change
      if new_quantity < 0 then
        Except.error "Adjustment would result in negative quantity"
      else
        Except.ok { db with
          items := db.items.map (fun it =>
            if it.id = stock_item.id then
              { it with
                quantity := new_quantity,
                status := if new_quantity = 0 then StockStatus.scrapped else it.status }
            else it),
          movements := db.movements ++
            [⟨stock_item.id, "adjustment", quantity_change, none, none⟩] }

/-- Embeds partial_repack (stock_service.py lines 198-315): look up by
barcode, require in_stock and 0 < units_taken < quantity, then mark
the original consumed, append a partial_repack movement of -quantity,
create one new partial StockItem holding the remainder with the next
allocated barcode and parent_stock_item_id pointing at the original,
and append a stock_in movement of +remainder.  today_str is the
calendar day generate_barcode_ids stamps into the new barcode. -/
def repack (db : StockDB) (barcode_id : String) (units_taken : Int)
    (order_id : Option Nat) (today_str : String) : Except String StockDB :=
  match db.items.find? (fun it => it.barcode_id == barcode_id) with
  | none => Except.error ("Barcode not recognised: " ++ barcode_id)
  | some original =>
    if original.status ≠ StockStatus.in_stock then
      Except.error "Cannot repack - wrong status"
    else if units_taken ≤ 0 then
      Except.error "Units taken must be greater than zero"
    else if original.quantity ≤ units_taken then
      Except.error "Units taken must be less than box quantity - use scan-out for the whole box"
    else
      let remaining := original.quantity - units_taken
      let new_barcode_id :=
        (generate_barcode_ids db.items original.product_code original.colour 1 today_str).headD ""
      Except.ok { db with
        items := (db.items.map (fun it =>
          if it.id = original.id then
            { it with
              status := StockStatus.consumed,
              order_id := if order_id.isSome then order_id else it.order_id }
          else it)) ++
          [⟨db.next_id, new_barcode_id, original.product_code, original.colour, remaining,
            "partial", StockStatus.in_stock, none, some original.id⟩],
        movements := db.movements ++
          [⟨original.id, "partial_repack", -original.quantity, order_id, none⟩,
           ⟨db.next_id, "stock_in", remaining, none, none⟩],
        next_id := db.next_id + 1 }

-- ── Stocktake completion (stocktake_service.py) ──────────────────────

/-- The found_barcodes set of complete_session (stocktake_service.py
lines 182-190): barcodes of this session's found-classified scans. -/
def session_found_barcodes (db : StockDB) (session_id : Nat) : List String :=
  (db.scans.filter (fun sc =>
    sc.session_id = session_id ∧ sc.scan_result = ScanResult.found)).map
      (fun sc => sc.barcode_scanned)

/-- The missing_items list of complete_session (stocktake_service.py
lines 192-203): in_stock items whose barcode has no found scan in the
session. -/
def session_missing_items (db : StockDB) (session_id : Nat) : List StockItem :=
  (db.items.filter (fun it => it.status = StockStatus.in_stock)).filter
    (fun it => ¬ (session_found_barcodes db session_id).contains it.barcode_id)

/-- The unexpected_count of complete_session (stocktake_service.py
lines 205-213): this session's scans classified not_in_system or
wrong_status. -/
def session_unexpected_count (db : StockDB) (session_id : Nat) : Nat :=
  (db.scans.filter (fun sc =>
    sc.session_id = session_id ∧
    (sc.scan_result = ScanResult.not_in_system ∨ sc.scan_result = ScanResult.wrong_status))).length

/-- Embeds complete_session (stocktake_service.py lines 163-253):
missing = in_stock items with no found scan in the session; unexpected
= count of the session's not_in_system or wrong_status scans; when
auto_adjust is set and something is missing, every missing item is
scrapped and given an adjustment movement of -quantity tagged with the
session; the session is completed with total_discrepancies =
missing + unexpected. -/
def complete_session (db : StockDB) (session_id : Nat) (auto_adjust : Bool) :
    Except String StockDB :=
  match db.sessions.find? (fun s => s.id == session_id) with
  | none => Except.error "Stocktake session not found"
  | some session =>
    if session.status ≠ SessionStatus.in_progress then
      Except.error "Session is not in progress"
    else
      Except.ok { db with
        items :=
          if auto_adjust ∧ session_missing_items db session_id ≠ [] then
            db.items.map (fun it =>
              if ((session_missing_items db session_id).map (fun m => m.id)).contains it.id
              then { it with status := StockStatus.scrapped } else it)
          else db.items,
        movements := db.movements ++
          (if auto_adjust ∧ session_missing_items db session_id ≠ [] then
            (session_missing_items db session_id).map (fun it =>
              (⟨it.id, "adjustment", -it.quantity, none, some session_id⟩ : StockMovement))
          else []),
        sessions := db.sessions.map (fun s =>
          if s.id = session_id then
            { s with
              status := SessionStatus.completed,
              total_discrepancies :=
                (session_missing_items db session_id).length +
                  session_unexpected_count db session_id }
          else s) }

-- ── Stock aggregation and verification creation ──────────────────────

/-- One aggregated row of get_stock_levels. -/
structure StockLevelRow where
  product_code : String
  colour : String
  carton_count : Nat
  total_quantity : Int
deriving DecidableEq

/-- Keeps the first occurrence of every element (the grouping keys of a
SQL GROUP BY, in first-appearance order). -/
def dedup_first (l : List (String × String)) : List (String × String) :=
  l.foldl (fun acc k => if acc.contains k then acc else acc ++ [k]) []

/-- Embeds get_stock_levels (stock_service.py lines 88-124): filter to
in_stock, optionally filter by product_code and colour (a falsy filter
value applies no filter, as python truthiness does), then group by
(product_code, colour) with carton count and summed quantity. -/
def get_stock_levels (items : List StockItem) (product_code colour : Option String) :
    List StockLevelRow :=
  let base := items.filter (fun it => it.status = StockStatus.in_stock)
  let f1 := match product_code with
    | some pc => if pc = "" then base else base.filter (fun it => it.product_code = pc)
    | none => base
  let f2 := match colour with
    | some c => if c = "" then f1 else f1.filter (fun it => it.colour = c)
    | none => f1
  (dedup_first (f2.map (fun it => (it.product_code, it.colour)))).map (fun k =>
    { product_code := k.1, colour := k.2,
      carton_count := (f2.filter (fun it => it.product_code = k.1 ∧ it.colour = k.2)).length,
      total_quantity := ((f2.filter (fun it => it.product_code = k.1 ∧ it.colour = k.2)).map
        (fun it => it.quantity)).sum })

/-- python `a or b` on nullable strings: b when a is null or empty. -/
def py_or_str (a b : Option String) : Option String :=
  match a with
  | some sa => if sa = "" then b else some sa
  | none => b

/-- python truthiness of a nullable string. -/
def truthy_str (a : Option String) : Bool :=
  match a with
  | some sa => sa ≠ ""
  | none => false

/-- Embeds create_verifications_for_order (stock_verification_service.py
lines 20-73) for the line items of one order: per line item take
matched_product_code or the raw product_code (python or), skip when
product code or colour is falsy, query get_stock_levels for the pair,
skip when no row or a nonpositive total, otherwise create one pending
StockVerification snapshotting the total. -/
def create_verifications_for_order (line_items : List OrderLineItem)
    (stock : List StockItem) : List StockVerification :=
  line_items.filterMap (fun li =>
    let product_code := py_or_str li.matched_product_code li.product_code
    let colour := li.colour
    if ¬ (truthy_str product_code ∧ truthy_str colour) then none
    else
      match get_stock_levels stock product_code colour with
      | [] => none
      | l0 :: _ =>
        if l0.total_quantity ≤ 0 then none
        else some { id := 0, order_line_item_id := li.id,
                    product_code := product_code.getD "", colour := colour.getD "",
                    system_stock_quantity := l0.total_quantity,
                    verified_quantity := none, status := VerStatus.pending })

/-- The aggregated in-stock quantity for one (product_code, colour)
pair, as the spec words it: the sum of the quantities of the in_stock
cartons carrying exactly that product code and colour. -/
def in_stock_total (stock : List StockItem) (pc colour : String) : Int :=
  ((stock.filter (fun it =>
    it.status = StockStatus.in_stock ∧ it.product_code = pc ∧ it.colour = colour)).map
      (fun it => it.quantity)).sum

/-- A terminal carton status per spec section 4.2. -/
def terminal_status (st : StockStatus) : Prop :=
  st = StockStatus.picked ∨ st = StockStatus.scrapped ∨ st = StockStatus.consumed

instance (st : StockStatus) : Decidable (terminal_status st) := by
  unfold terminal_status; infer_instance

/-- Whether an in_stock carton counts as missing for a stocktake
session, as the spec words it: its barcode has no found-classified
scan in the session. -/
def missing_in_session (scans : List StocktakeScan) (session_id : Nat) (it : StockItem) : Prop :=
  it.status = StockStatus.in_stock ∧
  ∀ sc ∈ scans, ¬ (sc.session_id = session_id ∧ sc.scan_result = ScanResult.found ∧
    sc.barcode_scanned = it.barcode_id)

instance (scans : List StocktakeScan) (session_id : Nat) (it : StockItem) :
    Decidable (missing_in_session scans session_id it) := by
  unfold missing_in_session; infer_instance

-- ── Concrete sample states used by witnesses and counterexamples ─────

/-- Spec section 8 scenario: one line item ordering 100 units. -/
def li100 : OrderLineItem := ⟨1, 1, some "P", some "P", some "Black", 100, none⟩

/-- A confirmed verification crediting 30 units to line item 1. -/
def ver30 : StockVerification := ⟨10, 1, "P", "Black", 30, some 30, VerStatus.confirmed⟩

/-- A pending verification for line item 1. -/
def ver_pending : StockVerification := ⟨11, 1, "P", "Black", 30, none, VerStatus.pending⟩

/-- An approved order whose single verification is confirmed. -/
def s_ready : OrderState := ⟨OrderStatus.approved, none, [li100], [ver30]⟩

/-- An order still pending approval. -/
def s_unapproved : OrderState := ⟨OrderStatus.pending, none, [li100], [ver30]⟩

/-- An approved order with a pending verification. -/
def s_blocked : OrderState := ⟨OrderStatus.approved, none, [li100], [ver_pending]⟩

/-- A pending order with one line item and no verifications. -/
def s_nostock : OrderState := ⟨OrderStatus.pending, none, [li100], []⟩

/-- A line item with no catalog match but a raw extracted code. -/
def li_unmatched : OrderLineItem := ⟨7, 1, some "Q", none, some "Black", 40, none⟩

/-- An in-stock carton of 5 units of Q / Black. -/
def carton_q : StockItem :=
  ⟨3, "RJ-Q-BLK-20260101-001", "Q", "Black", 5, "full", StockStatus.in_stock, none, none⟩

/-- An in-stock sample carton with a given barcode. -/
def mk_carton (b : String) : StockItem :=
  ⟨0, b, "A", "black", 10, "full", StockStatus.in_stock, none, none⟩

/-- First barcode-allocator call of the duplicate-identifier scenario:
two labels for product A, colour black, on 2026-01-01. -/
def ce_call1 : List String := generate_barcode_ids [] "A" "black" 2 "20260101"

/-- The rows recorded from the first call. -/
def ce_db1 : List StockItem := ce_call1.map mk_carton

/-- Second call: one label for the distinct product A-BLK-20260101 on
2030-01-01; its barcode happens to extend the first product's
prefix. -/
def ce_call2 : List String := generate_barcode_ids ce_db1 "A-BLK-20260101" "zz" 1 "20300101"

/-- The rows recorded after the second call. -/
def ce_db2 : List StockItem := ce_db1 ++ ce_call2.map mk_carton

/-- Third call: one more label for product A, colour black, on
2026-01-01. -/
def ce_call3 : List String := generate_barcode_ids ce_db2 "A" "black" 1 "20260101"

/-- A sample database holding one in-stock carton of 50 units. -/
def carton50 : StockItem :=
  ⟨1, "RJ-A-BLK-20260101-001", "A", "black", 50, "full", StockStatus.in_stock, none, none⟩

/-- The sample stock database for the repack witness. -/
def db_repack : StockDB := ⟨[carton50], [], [], [], 2⟩

/-- The stocktake session of the C8 witness. -/
def take_session : StocktakeSession := ⟨5, "take1", SessionStatus.in_progress, 2, 1, 0⟩

/-- A found scan of the first carton and an unknown-barcode scan. -/
def scan_found : StocktakeScan := ⟨5, "RJ-A-BLK-20260101-001", some 1, ScanResult.found⟩

/-- A scan of a barcode absent from the system. -/
def scan_unknown : StocktakeScan := ⟨5, "RJ-X-XXX-20260101-001", none, ScanResult.not_in_system⟩

/-- A second in-stock carton that is never scanned in the session. -/
def carton_missing : StockItem :=
  ⟨2, "RJ-A-BLK-20260101-002", "A", "black", 10, "full", StockStatus.in_stock, none, none⟩

/-- The stocktake database of the C8 witness: two in-stock cartons,
one found scan, one unknown scan, one in-progress session. -/
def db_take : StockDB :=
  ⟨[carton50, carton_missing], [], [scan_found, scan_unknown], [take_session], 3⟩

/-- A picked carton used by the C7 witness. -/
def carton_picked : StockItem :=
  ⟨9, "RJ-A-BLK-20260101-009", "A", "black", 10, "full", StockStatus.picked, none, none⟩

/-- A stock database holding one picked carton and one in-stock
carton. -/
def db_terminal : StockDB := ⟨[carton_picked, carton50], [], [], [], 10⟩

-- ═════════════════════════════════════ Theorems ═════════════════════

/-- check_and_generate_works_orders equals the decision the spec
describes: generate exactly when the completion condition holds,
otherwise leave the state untouched and report false. -/
lemma check_spec (s : OrderState) :
    check_and_generate_works_orders s =
      if completion_ready s then (true, generate_adjusted_works_orders s) else (false, s) := by
  unfold check_and_generate_works_orders completion_ready
  by_cases h1 : s.status = OrderStatus.approved ∨ s.status = OrderStatus.verified
  · have h2 : ¬ s.status = OrderStatus.works_order_generated := by
      rcases h1 with h | h <;> simp [h]
    by_cases h3 : (s.line_items.any fun li => li.works_order_file.isSome) = true
    · have hne : ¬ ∀ li ∈ s.line_items, li.works_order_file = none := by
        simp only [List.any_eq_true] at h3
        obtain ⟨li, hmem, hsome⟩ := h3
        intro hall
        have := hall li hmem
        simp [this] at hsome
      simp [h1, h2, h3, hne]
    · have hall : ∀ li ∈ s.line_items, li.works_order_file = none := by
        simp only [List.any_eq_true, not_exists] at h3
        intro li hmem
        have := h3 li
        cases hfile : li.works_order_file <;> simp_all
      by_cases h4 : (s.verifications.filter fun v => v.status = VerStatus.pending) = []
      · have hnp : ∀ v ∈ s.verifications, v.status ≠ VerStatus.pending := by
          rw [List.filter_eq_nil_iff] at h4
          intro v hv
          simpa using h4 v hv
        simp [h1, h2, h3, h4, hall, hnp]
        exact (if_pos ⟨hall, hnp⟩).symm
      · have hnp : ¬ ∀ v ∈ s.verifications, v.status ≠ VerStatus.pending := by
          intro hcon
          apply h4
          rw [List.filter_eq_nil_iff]
          intro v hv
          simpa using hcon v hv
        simp [h1, h2, h3, h4, hnp]
  · simp [h1]

/-- The adjusted-generation pass leaves the verification rows alone. -/
lemma generate_adjusted_verifications (s : OrderState) :
    (generate_adjusted_works_orders s).verifications = s.verifications := rfl

/-- The completion check leaves the verification rows alone. -/
lemma check_verifications (s : OrderState) :
    (check_and_generate_works_orders s).2.verifications = s.verifications := by
  rw [check_spec]
  by_cases h : completion_ready s <;> simp [h, generate_adjusted_verifications]

/-- C1: the order-level completion check generates and returns True
exactly when the order is approved or verified, no line item already
carries works-order bytes, and no verification of the order is
pending; on a False outcome the state is left unchanged. -/
theorem completion_check_iff (s : OrderState) :
    ((check_and_generate_works_orders s).1 = true ↔
      (s.status = OrderStatus.approved ∨ s.status = OrderStatus.verified) ∧
      (∀ li ∈ s.line_items, li.works_order_file = none) ∧
      (∀ v ∈ s.verifications, v.status ≠ VerStatus.pending)) ∧
    ((check_and_generate_works_orders s).1 = false →
      (check_and_generate_works_orders s).2 = s) := by
  rw [check_spec]
  by_cases h : completion_ready s
  · rw [if_pos h]
    refine ⟨?_, fun hcon => by cases hcon⟩
    simp only [true_iff]
    exact h
  · rw [if_neg h]
    refine ⟨?_, fun _ => rfl⟩
    constructor
    · intro hcon; cases hcon
    · intro hcon; exact absurd hcon h

/-- C1 witness: on a blocked sample order (pending verification) the
check reports false and, by the theorem, changes nothing. -/
theorem completion_check_iff_witness :
    (check_and_generate_works_orders s_blocked).2 = s_blocked :=
  (completion_check_iff s_blocked).2 (by decide)

/-- C4: once a call of the completion check has generated (returned
true), running it again on the resulting state is a no-op returning
false and leaving the state unchanged. -/
theorem completion_check_idempotent (s : OrderState) :
    (check_and_generate_works_orders s).1 = true →
    check_and_generate_works_orders (check_and_generate_works_orders s).2 =
      (false, (check_and_generate_works_orders s).2) := by
  intro h
  by_cases hc : completion_ready s
  · have hng : ¬ completion_ready (generate_adjusted_works_orders s) := by
      intro hcon
      rcases hcon.1 with hst | hst <;> simp [generate_adjusted_works_orders] at hst
    have h2 : (check_and_generate_works_orders s).2 = generate_adjusted_works_orders s := by
      rw [check_spec, if_pos hc]
    rw [h2, check_spec, if_neg hng]
  · rw [check_spec, if_neg hc] at h
    cases h

/-- C4 witness: the ready sample order generates on the first call
(decided concretely) and the theorem then gives the second call as a
no-op. -/
theorem completion_check_idempotent_witness :
    check_and_generate_works_orders (check_and_generate_works_orders s_ready).2 =
      (false, (check_and_generate_works_orders s_ready).2) :=
  completion_check_idempotent s_ready (by decide)

/-- C6: the barcode allocator can return an identifier equal to one it
already issued and recorded.  After two labels for product A + black
on 2026-01-01 and one label for product A-BLK-20260101 + zz on
2030-01-01 (whose barcode extends the first prefix and is its
lexicographic maximum under the LIKE match), the next call for
product A + black returns RJ-A-BLK-20260101-002, an identifier the
first call already issued. -/
theorem barcode_duplicate_counterexample :
    ce_call1 = ["RJ-A-BLK-20260101-001", "RJ-A-BLK-20260101-002"] ∧
    ce_call2 = ["RJ-A-BLK-20260101-ZZ-20300101-001"] ∧
    ce_call3 = ["RJ-A-BLK-20260101-002"] ∧
    "RJ-A-BLK-20260101-002" ∈ ce_call1 := by
  decide

/-- Folding the verification-map step over rows that never match the
line item leaves the accumulator unchanged. -/
lemma verification_map_foldl_no_match (vs : List StockVerification) (li_id : Nat)
    (hall : ∀ v ∈ vs, v.order_line_item_id ≠ li_id) (acc : Option Int) :
    vs.foldl (fun acc v =>
      if v.status = VerStatus.confirmed ∧ v.verified_quantity.isSome ∧ v.order_line_item_id = li_id
      then v.verified_quantity else acc) acc = acc := by
  induction vs generalizing acc with
  | nil => rfl
  | cons v vs ih =>
    have hv : v.order_line_item_id ≠ li_id := hall v (by simp)
    have hstep :
        (if v.status = VerStatus.confirmed ∧ v.verified_quantity.isSome ∧
            v.order_line_item_id = li_id then v.verified_quantity else acc) = acc := by
      rw [if_neg]
      rintro ⟨_, _, he⟩
      exact hv he
    simp only [List.foldl_cons, hstep]
    exact ih (fun w hw => hall w (by simp [hw])) acc

/-- When no two verifications share a line item, the dict-based lookup
of the source equals the spec-side confirmed credit. -/
lemma verification_map_eq_confirmed_credit (vs : List StockVerification) (li_id : Nat)
    (hnd : (vs.map (fun v => v.order_line_item_id)).Nodup) :
    (verification_map vs li_id).getD 0 = confirmed_credit vs li_id := by
  induction vs with
  | nil => rfl
  | cons v vs ih =>
    simp only [List.map_cons, List.nodup_cons] at hnd
    obtain ⟨hnotin, hnd2⟩ := hnd
    by_cases hid : v.order_line_item_id = li_id
    · have hall : ∀ w ∈ vs, w.order_line_item_id ≠ li_id := by
        intro w hw he
        exact hnotin (by rw [List.mem_map]; exact ⟨w, hw, by rw [he, hid]⟩)
      unfold verification_map
      simp only [List.foldl_cons]
      rw [verification_map_foldl_no_match vs li_id hall]
      unfold confirmed_credit
      cases hst : v.status with
      | confirmed =>
        have hfind : (v :: vs).find?
            (fun w => w.order_line_item_id == li_id && w.status == VerStatus.confirmed)
            = some v :=
          List.find?_cons_of_pos vs (by simp [hid, hst])
        rw [hfind]
        cases hq : v.verified_quantity <;> simp [hst, hid, hq]
      | pending =>
        have hfind : (v :: vs).find?
            (fun w => w.order_line_item_id == li_id && w.status == VerStatus.confirmed)
            = vs.find? (fun w => w.order_line_item_id == li_id && w.status == VerStatus.confirmed) :=
          List.find?_cons_of_neg vs (by simp [hst])
        rw [hfind]
        have hnone : vs.find?
            (fun w => w.order_line_item_id == li_id && w.status == VerStatus.confirmed) = none := by
          rw [List.find?_eq_none]
          intro w hw
          simp [hall w hw]
        rw [hnone]
        simp [hst]
      | expired =>
        have hfind : (v :: vs).find?
            (fun w => w.order_line_item_id == li_id && w.status == VerStatus.confirmed)
            = vs.find? (fun w => w.order_line_item_id == li_id && w.status == VerStatus.confirmed) :=
          List.find?_cons_of_neg vs (by simp [hst])
        rw [hfind]
        have hnone : vs.find?
            (fun w => w.order_line_item_id == li_id && w.status == VerStatus.confirmed) = none := by
          rw [List.find?_eq_none]
          intro w hw
          simp [hall w hw]
        rw [hnone]
        simp [hst]
    · unfold verification_map confirmed_credit
      simp only [List.foldl_cons]
      have hstep :
          (if v.status = VerStatus.confirmed ∧ v.verified_quantity.isSome ∧
              v.order_line_item_id = li_id then v.verified_quantity else none) = none := by
        rw [if_neg]
        rintro ⟨_, _, he⟩
        exact hid he
      rw [hstep]
      have hfind : (v :: vs).find?
          (fun w => w.order_line_item_id == li_id && w.status == VerStatus.confirmed)
          = vs.find? (fun w => w.order_line_item_id == li_id && w.status == VerStatus.confirmed) :=
        List.find?_cons_of_neg vs (by simp [hid])
      rw [hfind]
      exact ih hnd2

/-- C2: when works orders are generated for a resolved order, every
line item's production quantity is max(0, ordered - confirmed) with a
not-confirmed or absent verification crediting 0, the quantity is
never negative for any (ordered, confirmed) pair, and a line item with
production quantity 0 gets no works order (its document field is left
exactly as it was). -/
theorem works_order_adjusted_quantity (s : OrderState)
    (hnd : (s.verifications.map (fun v => v.order_line_item_id)).Nodup)
    (i : Nat) (h : i < s.line_items.length) :
    let li := s.line_items.get ⟨i, h⟩
    let c := confirmed_credit s.verifications li.id
    let p := calculate_adjusted_quantity li.quantity c
    p = max 0 (li.quantity - c) ∧
    (∀ ordered confirmed : Int, 0 ≤ calculate_adjusted_quantity ordered confirmed) ∧
    (generate_adjusted_works_orders s).line_items[i]? =
      some (if p = 0 then li
            else { li with works_order_file := some (generate_works_order li (some p) (some c)) }) := by
  intro li c p
  refine ⟨rfl, fun ordered confirmed => le_max_left 0 (ordered - confirmed), ?_⟩
  have hmap : (generate_adjusted_works_orders s).line_items =
      s.line_items.map (fun item =>
        let verified_qty := (verification_map s.verifications item.id).getD 0
        let adjusted_qty := calculate_adjusted_quantity item.quantity verified_qty
        if adjusted_qty = 0 then item
        else { item with
               works_order_file :=
                 some (generate_works_order item (some adjusted_qty) (some verified_qty)) }) := rfl
  rw [hmap, List.getElem?_map, List.getElem?_eq_getElem h]
  simp only [Option.map_some']
  rw [verification_map_eq_confirmed_credit s.verifications _ hnd]
  rfl

/-- C2 witness: in the ready sample order (100 ordered, 30 confirmed)
the theorem instantiates at line 0: production quantity 70 =
max(0, 100 - 30) and the generated works order carries 70. -/
theorem works_order_adjusted_quantity_witness :
    ((s_ready.verifications.map (fun v => v.order_line_item_id)).Nodup ∧
      0 < s_ready.line_items.length) ∧
    (let li := s_ready.line_items.get ⟨0, by decide⟩
     let c := confirmed_credit s_ready.verifications li.id
     let p := calculate_adjusted_quantity li.quantity c
     p = max 0 (li.quantity - c) ∧
     (∀ ordered confirmed : Int, 0 ≤ calculate_adjusted_quantity ordered confirmed) ∧
     (generate_adjusted_works_orders s_ready).line_items[0]? =
       some (if p = 0 then li
             else { li with works_order_file := some (generate_works_order li (some p) (some c)) })) :=
  ⟨⟨by decide, by decide⟩,
    works_order_adjusted_quantity s_ready (by decide) 0 (by decide)⟩

/-- C3: approving an order that has no StockVerification rows at all
generates immediately through the total == 0 branch: the result is ok
with works_order_triggered true, the order ends works_order_generated,
and every line item receives a works order generated with the default
(unadjusted) arguments, whose production quantity is the original
ordered quantity - not the adjusted-quantity form, which always
records an explicit adjusted quantity. -/
theorem approve_order_no_stock_fast_path (s : OrderState)
    (hp : s.status = OrderStatus.pending) (hne : s.line_items ≠ [])
    (hnov : s.verifications = []) :
    ∃ s', approve_order s = Except.ok (s', true) ∧
      s'.status = OrderStatus.works_order_generated ∧
      s'.office_order_file = some generate_office_order ∧
      ∀ i (h : i < s.line_items.length),
        s'.line_items[i]? = some { s.line_items.get ⟨i, h⟩ with
          works_order_file := some (Doc.works (s.line_items.get ⟨i, h⟩).quantity none none) } := by
  refine ⟨{ generate_all_forms { s with status := OrderStatus.approved } with
    status := OrderStatus.works_order_generated }, ?_, rfl, rfl, ?_⟩
  · unfold approve_order
    rw [if_neg (by simp [hp]), if_neg hne]
    have htot : ({ s with status := OrderStatus.approved } : OrderState).verifications.length
        = 0 := by simp [hnov]
    simp only [htot, if_pos]
  · intro i h
    have hmap : ({ generate_all_forms { s with status := OrderStatus.approved } with
        status := OrderStatus.works_order_generated } : OrderState).line_items =
        s.line_items.map (fun item =>
          { item with works_order_file := some (generate_works_order item none none) }) := rfl
    rw [hmap, List.getElem?_map, List.getElem?_eq_getElem h]
    rfl

/-- C3 witness: the pending no-verification sample order is approved
and its single 100-unit line item gets a works order for 100. -/
theorem approve_order_no_stock_fast_path_witness :
    (s_nostock.status = OrderStatus.pending ∧ s_nostock.line_items ≠ [] ∧
      s_nostock.verifications = []) ∧
    ∃ s', approve_order s_nostock = Except.ok (s', true) ∧
      s'.status = OrderStatus.works_order_generated ∧
      s'.office_order_file = some generate_office_order ∧
      ∀ i (h : i < s_nostock.line_items.length),
        s'.line_items[i]? = some { s_nostock.line_items.get ⟨i, h⟩ with
          works_order_file := some (Doc.works (s_nostock.line_items.get ⟨i, h⟩).quantity none none) } :=
  ⟨⟨by decide, by decide, by decide⟩,
    approve_order_no_stock_fast_path s_nostock (by decide) (by decide) (by decide)⟩

/-- Updating exactly the verifications with the sought id preserves
what find? returns, up to the update. -/
lemma find_map_update (l : List StockVerification) (vid : Nat)
    (f : StockVerification → StockVerification) (hid : ∀ w, (f w).id = w.id)
    (v : StockVerification) (h : l.find? (fun w => w.id == vid) = some v) :
    (l.map (fun w => if w.id = vid then f w else w)).find? (fun w => w.id == vid)
      = some (f v) := by
  induction l with
  | nil => cases h
  | cons w l ih =>
    by_cases hw : w.id = vid
    · have hhead : (w :: l).find? (fun w => w.id == vid) = some w :=
        List.find?_cons_of_pos l (by simp [hw])
      rw [hhead] at h
      cases h
      simp only [List.map_cons, if_pos hw]
      exact List.find?_cons_of_pos _ (by simp [hid, hw])
    · have hhead : (w :: l).find? (fun w => w.id == vid)
          = l.find? (fun w => w.id == vid) :=
        List.find?_cons_of_neg l (by simp [hw])
      rw [hhead] at h
      simp only [List.map_cons, if_neg hw]
      rw [List.find?_cons_of_neg _ (by simp [hw])]
      exact ih h

/-- C9: confirm_verification errors exactly when the id is unknown or
the verification is not pending, and for a pending verification it
succeeds for every integer quantity - with no bound check against the
snapshot or the ordered quantity - recording that quantity unmodified
and setting the status to confirmed. -/
theorem confirm_verification_spec (s : OrderState) (vid : Nat) (q : Int) :
    ((confirm_verification s vid q).isOk = true ↔
      ∃ v, s.verifications.find? (fun w => w.id == vid) = some v ∧
        v.status = VerStatus.pending) ∧
    (∀ v, s.verifications.find? (fun w => w.id == vid) = some v →
      v.status = VerStatus.pending →
      ∃ s' b, confirm_verification s vid q = Except.ok (s', b) ∧
        s'.verifications.find? (fun w => w.id == vid) =
          some { v with verified_quantity := some q, status := VerStatus.confirmed }) := by
  cases hf : s.verifications.find? (fun w => w.id == vid) with
  | none =>
    have herr : confirm_verification s vid q = Except.error "Verification not found" := by
      unfold confirm_verification
      rw [hf]
    constructor
    · rw [herr]
      simp [Except.isOk, Except.toBool]
    · intro v hv
      cases hv
  | some v =>
    by_cases hp : v.status = VerStatus.pending
    · have hok : confirm_verification s vid q =
          Except.ok ((check_and_generate_works_orders { s with
            verifications := s.verifications.map (fun w =>
              if w.id = vid then
                { w with verified_quantity := some q, status := VerStatus.confirmed }
              else w) }).2,
            (check_and_generate_works_orders { s with
            verifications := s.verifications.map (fun w =>
              if w.id = vid then
                { w with verified_quantity := some q, status := VerStatus.confirmed }
              else w) }).1) := by
        simp only [confirm_verification, hf]
        rw [if_neg (by simp [hp])]
      constructor
      · rw [hok]
        simp only [Except.isOk, Except.toBool, true_iff]
        exact ⟨v, rfl, hp⟩
      · intro v' hv' _
        cases hv'
        refine ⟨_, _, hok, ?_⟩
        rw [check_verifications]
        exact find_map_update s.verifications vid
          (fun w => { w with verified_quantity := some q, status := VerStatus.confirmed })
          (fun w => rfl) v hf
    · have herr : confirm_verification s vid q = Except.error "Verification must be pending" := by
        simp only [confirm_verification, hf]
        rw [if_pos (by simp [hp])]
      constructor
      · rw [herr]
        constructor
        · intro hcon; cases hcon
        · rintro ⟨v', hv', hp'⟩
          cases hv'
          exact absurd hp' hp
      · intro v' hv' hp'
        cases hv'
        exact absurd hp' hp

/-- C9 witness: confirming the pending sample verification with the
negative quantity -5 (below any bound) succeeds. -/
theorem confirm_verification_spec_witness :
    (confirm_verification s_blocked 11 (-5)).isOk = true :=
  (confirm_verification_spec s_blocked 11 (-5)).1.mpr ⟨ver_pending, by decide, by decide⟩

/-- Folding the dedup step over elements already in the accumulator
head leaves [k] unchanged. -/
lemma dedup_fold_const (xs : List (String × String)) (k : String × String)
    (hall : ∀ x ∈ xs, x = k) :
    xs.foldl (fun acc x => if acc.contains x then acc else acc ++ [x]) [k] = [k] := by
  induction xs with
  | nil => rfl
  | cons x xs ih =>
    have hx : x = k := hall x (by simp)
    subst hx
    simp only [List.foldl_cons, List.contains_cons]
    rw [if_pos (by simp)]
    exact ih (fun y hy => hall y (by simp [hy]))

/-- Deduplicating a nonempty constant list yields the singleton. -/
lemma dedup_first_all_eq (l : List (String × String)) (k : String × String)
    (hall : ∀ x ∈ l, x = k) (hne : l ≠ []) : dedup_first l = [k] := by
  cases l with
  | nil => exact absurd rfl hne
  | cons x xs =>
    have hx : x = k := hall x (by simp)
    unfold dedup_first
    simp only [List.foldl_cons]
    rw [hx, if_neg (by simp), List.nil_append]
    exact dedup_fold_const xs k (fun y hy => hall y (by simp [hy]))

/-- get_stock_levels with both a product and a colour filter reduces
to the single aggregated row over the cartons matching all three
conditions, or no row when no carton matches. -/
lemma get_stock_levels_both (stock : List StockItem) (pc col : String)
    (hpc : pc ≠ "") (hcol : col ≠ "") :
    get_stock_levels stock (some pc) (some col) =
      (if _h : (stock.filter (fun it => it.status = StockStatus.in_stock ∧
          it.product_code = pc ∧ it.colour = col)) = [] then []
       else [{ product_code := pc, colour := col,
               carton_count := (stock.filter (fun it => it.status = StockStatus.in_stock ∧
                 it.product_code = pc ∧ it.colour = col)).length,
               total_quantity := ((stock.filter (fun it => it.status = StockStatus.in_stock ∧
                 it.product_code = pc ∧ it.colour = col)).map (fun it => it.quantity)).sum }]) := by
  have hf2 : ((stock.filter (fun it => it.status = StockStatus.in_stock)).filter
        (fun it => it.product_code = pc)).filter (fun it => it.colour = col) =
      stock.filter (fun it => it.status = StockStatus.in_stock ∧
        it.product_code = pc ∧ it.colour = col) := by
    rw [List.filter_filter, List.filter_filter]
    apply List.filter_congr
    intro a _
    by_cases h1 : a.status = StockStatus.in_stock <;>
      by_cases h2 : a.product_code = pc <;>
      by_cases h3 : a.colour = col <;>
      simp [h1, h2, h3]
  have hunf : get_stock_levels stock (some pc) (some col) =
      (dedup_first ((stock.filter (fun it => it.status = StockStatus.in_stock ∧
        it.product_code = pc ∧ it.colour = col)).map
          (fun it => (it.product_code, it.colour)))).map (fun k =>
        { product_code := k.1, colour := k.2,
          carton_count := ((stock.filter (fun it => it.status = StockStatus.in_stock ∧
            it.product_code = pc ∧ it.colour = col)).filter
              (fun it => it.product_code = k.1 ∧ it.colour = k.2)).length,
          total_quantity := (((stock.filter (fun it => it.status = StockStatus.in_stock ∧
            it.product_code = pc ∧ it.colour = col)).filter
              (fun it => it.product_code = k.1 ∧ it.colour = k.2)).map
                (fun it => it.quantity)).sum }) := by
    simp only [get_stock_levels]
    rw [if_neg hpc, if_neg hcol, hf2]
  rw [hunf]
  by_cases hempty : (stock.filter (fun it => it.status = StockStatus.in_stock ∧
      it.product_code = pc ∧ it.colour = col)) = []
  · rw [dif_pos hempty, hempty]
    rfl
  · have hkeys : ∀ x ∈ (stock.filter (fun it => it.status = StockStatus.in_stock ∧
        it.product_code = pc ∧ it.colour = col)).map (fun it => (it.product_code, it.colour)),
        x = (pc, col) := by
      intro x hx
      rw [List.mem_map] at hx
      obtain ⟨it, hit, hx⟩ := hx
      rw [List.mem_filter] at hit
      have := hit.2
      simp only [decide_eq_true_eq] at this
      rw [← hx, this.2.1, this.2.2]
    have hmapne : (stock.filter (fun it => it.status = StockStatus.in_stock ∧
        it.product_code = pc ∧ it.colour = col)).map (fun it => (it.product_code, it.colour)) ≠ [] := by
      simpa using hempty
    rw [dedup_first_all_eq _ (pc, col) hkeys hmapne, dif_neg hempty]
    have hself : (stock.filter (fun it => it.status = StockStatus.in_stock ∧
        it.product_code = pc ∧ it.colour = col)).filter
          (fun it => it.product_code = pc ∧ it.colour = col) =
        stock.filter (fun it => it.status = StockStatus.in_stock ∧
          it.product_code = pc ∧ it.colour = col) := by
      rw [List.filter_eq_self]
      intro a ha
      rw [List.mem_filter] at ha
      have := ha.2
      simp only [decide_eq_true_eq] at this
      simp [this.2.1, this.2.2]
    rw [List.map_cons, List.map_nil]
    rw [hself]

/-- C10: create_verifications_for_order falls back to the raw extracted
product code when matched_product_code is null - a pending
verification snapshotting the aggregated stock is created for an
unmatched line item whenever its raw code plus colour has positive
in-stock quantity. -/
theorem unmatched_line_item_gets_verification (line_items : List OrderLineItem)
    (stock : List StockItem) (li : OrderLineItem) (hmem : li ∈ line_items)
    (hnomatch : li.matched_product_code = none)
    (pc col : String) (hraw : li.product_code = some pc) (hpc : pc ≠ "")
    (hcol : li.colour = some col) (hc : col ≠ "")
    (hqty : 0 < in_stock_total stock pc col) :
    ∃ v ∈ create_verifications_for_order line_items stock,
      v.order_line_item_id = li.id ∧ v.product_code = pc ∧ v.colour = col ∧
      v.status = VerStatus.pending ∧
      v.system_stock_quantity = in_stock_total stock pc col := by
  have hne : (stock.filter (fun it => it.status = StockStatus.in_stock ∧
      it.product_code = pc ∧ it.colour = col)) ≠ [] := by
    intro hcon
    rw [in_stock_total, hcon] at hqty
    simp at hqty
  have hlev : get_stock_levels stock (some pc) (some col) =
      [{ product_code := pc, colour := col,
         carton_count := (stock.filter (fun it => it.status = StockStatus.in_stock ∧
           it.product_code = pc ∧ it.colour = col)).length,
         total_quantity := in_stock_total stock pc col }] := by
    rw [get_stock_levels_both stock pc col hpc hc, dif_neg hne]
    rfl
  have hor : py_or_str li.matched_product_code li.product_code = some pc := by
    rw [hnomatch, hraw]
    rfl
  have hstep : (fun li : OrderLineItem =>
      let product_code := py_or_str li.matched_product_code li.product_code
      let colour := li.colour
      if ¬ (truthy_str product_code ∧ truthy_str colour) then none
      else
        match get_stock_levels stock product_code colour with
        | [] => none
        | l0 :: _ =>
          if l0.total_quantity ≤ 0 then none
          else some ({ id := 0, order_line_item_id := li.id,
                       product_code := product_code.getD "", colour := colour.getD "",
                       system_stock_quantity := l0.total_quantity,
                       verified_quantity := none,
                       status := VerStatus.pending } : StockVerification)) li =
      some { id := 0, order_line_item_id := li.id,
             product_code := pc, colour := col,
             system_stock_quantity := in_stock_total stock pc col,
             verified_quantity := none, status := VerStatus.pending } := by
    have hnle : ¬ (in_stock_total stock pc col ≤ 0) := not_le.mpr hqty
    simp only [hor, hcol]
    rw [if_neg (by simp [truthy_str, hpc, hc]), hlev]
    simp [hnle]
  refine ⟨{ id := 0, order_line_item_id := li.id, product_code := pc, colour := col,
            system_stock_quantity := in_stock_total stock pc col,
            verified_quantity := none, status := VerStatus.pending }, ?_, rfl, rfl, rfl, rfl, rfl⟩
  unfold create_verifications_for_order
  rw [List.mem_filterMap]
  exact ⟨li, hmem, hstep⟩

/-- C10 witness: a line item with no catalog match but raw code Q and
colour Black, with 5 units of Q/Black in stock, gets a pending
verification snapshotting 5. -/
theorem unmatched_line_item_gets_verification_witness :
    ∃ v ∈ create_verifications_for_order [li_unmatched] [carton_q],
      v.order_line_item_id = li_unmatched.id ∧ v.product_code = "Q" ∧ v.colour = "Black" ∧
      v.status = VerStatus.pending ∧
      v.system_stock_quantity = in_stock_total [carton_q] "Q" "Black" :=
  unmatched_line_item_gets_verification [li_unmatched] [carton_q] li_unmatched
    (List.mem_singleton.mpr rfl) rfl "Q" "Black" rfl (by decide) rfl (by decide) (by decide)

/-- C5: partial repack requires an in_stock carton and
0 < units_taken < quantity (taking the whole quantity is rejected),
failing with a domain error otherwise; on success the original carton
of q units is consumed with a partial_repack movement of -q, exactly
one new StockItem appears holding q - t units with box_type partial,
status in_stock and parent_stock_item_id the original id, a stock_in
movement of +(q - t) is written, and the two movements net to -t. -/
theorem partial_repack_spec (db : StockDB) (b : String) (t : Int)
    (oid : Option Nat) (d : String) (orig : StockItem)
    (hfind : db.items.find? (fun it => it.barcode_id == b) = some orig) :
    (¬ (orig.status = StockStatus.in_stock ∧ 0 < t ∧ t < orig.quantity) →
      ∃ e, repack db b t oid d = Except.error e) ∧
    (orig.status = StockStatus.in_stock → 0 < t → t < orig.quantity →
      ∃ db' nb,
        repack db b t oid d = Except.ok db' ∧
        db'.items.length = db.items.length + 1 ∧
        (∀ i (h : i < db.items.length),
          db'.items[i]? = some (if (db.items.get ⟨i, h⟩).id = orig.id
            then { db.items.get ⟨i, h⟩ with
                   status := StockStatus.consumed,
                   order_id := if oid.isSome then oid else (db.items.get ⟨i, h⟩).order_id }
            else db.items.get ⟨i, h⟩)) ∧
        db'.items[db.items.length]? = some ⟨db.next_id, nb, orig.product_code, orig.colour,
          orig.quantity - t, "partial", StockStatus.in_stock, none, some orig.id⟩ ∧
        db'.movements = db.movements ++
          [⟨orig.id, "partial_repack", -orig.quantity, oid, none⟩,
           ⟨db.next_id, "stock_in", orig.quantity - t, none, none⟩] ∧
        (-orig.quantity) + (orig.quantity - t) = -t) := by
  constructor
  · intro hviol
    simp only [repack, hfind]
    by_cases h1 : orig.status = StockStatus.in_stock
    · by_cases h2 : t ≤ 0
      · rw [if_neg (by simp [h1]), if_pos h2]
        exact ⟨_, rfl⟩
      · have h3 : orig.quantity ≤ t := by
          rcases not_and_or.mp hviol with hc | hc
          · exact absurd h1 hc
          · rcases not_and_or.mp hc with hc2 | hc2
            · exact absurd (lt_of_not_le h2) hc2
            · exact le_of_not_lt hc2
        rw [if_neg (by simp [h1]), if_neg h2, if_pos h3]
        exact ⟨_, rfl⟩
    · rw [if_pos (by simp [h1])]
      exact ⟨_, rfl⟩
  · intro h1 h2 h3
    refine ⟨⟨(db.items.map (fun it =>
          if it.id = orig.id then
            { it with
              status := StockStatus.consumed,
              order_id := if oid.isSome then oid else it.order_id }
          else it)) ++
          [⟨db.next_id, (generate_barcode_ids db.items orig.product_code orig.colour 1 d).headD "",
            orig.product_code, orig.colour, orig.quantity - t, "partial", StockStatus.in_stock,
            none, some orig.id⟩],
        db.movements ++ [⟨orig.id, "partial_repack", -orig.quantity, oid, none⟩,
          ⟨db.next_id, "stock_in", orig.quantity - t, none, none⟩],
        db.scans, db.sessions, db.next_id + 1⟩,
      (generate_barcode_ids db.items orig.product_code orig.colour 1 d).headD "",
      ?_, ?_, ?_, ?_, rfl, by ring⟩
    · simp only [repack, hfind]
      rw [if_neg (by simp [h1]), if_neg (by simpa using h2), if_neg (by simpa using h3)]
    · simp
    · intro i h
      rw [List.getElem?_append_left (by simpa using h), List.getElem?_map,
        List.getElem?_eq_getElem h]
      rfl
    · have hlen : db.items.length =
          (db.items.map (fun it =>
            if it.id = orig.id then
              { it with
                status := StockStatus.consumed,
                order_id := if oid.isSome then oid else it.order_id }
            else it)).length := by simp
      rw [hlen, List.getElem?_concat_length]

/-- C5 witness: taking 20 of the 50 units succeeds, consumes the
original, creates the 30-unit partial carton, and writes movements of
-50 and +30 netting to -20. -/
theorem partial_repack_spec_witness :
    (db_repack.items.find? (fun it => it.barcode_id == "RJ-A-BLK-20260101-001") = some carton50 ∧
      carton50.status = StockStatus.in_stock ∧ (0 : Int) < 20 ∧ (20 : Int) < carton50.quantity) ∧
    ∃ db' nb,
      repack db_repack "RJ-A-BLK-20260101-001" 20 none "20260102" = Except.ok db' ∧
      db'.items.length = db_repack.items.length + 1 ∧
      (∀ i (h : i < db_repack.items.length),
        db'.items[i]? = some (if (db_repack.items.get ⟨i, h⟩).id = carton50.id
          then { db_repack.items.get ⟨i, h⟩ with
                 status := StockStatus.consumed,
                 order_id := if (none : Option Nat).isSome then none
                   else (db_repack.items.get ⟨i, h⟩).order_id }
          else db_repack.items.get ⟨i, h⟩)) ∧
      db'.items[db_repack.items.length]? = some ⟨db_repack.next_id, nb, carton50.product_code,
        carton50.colour, carton50.quantity - 20, "partial", StockStatus.in_stock, none,
        some carton50.id⟩ ∧
      db'.movements = db_repack.movements ++
        [⟨carton50.id, "partial_repack", -carton50.quantity, none, none⟩,
         ⟨db_repack.next_id, "stock_in", carton50.quantity - 20, none, none⟩] ∧
      (-carton50.quantity) + (carton50.quantity - 20) = -20 :=
  ⟨⟨by decide, by decide, by decide, by decide⟩,
    (partial_repack_spec db_repack "RJ-A-BLK-20260101-001" 20 none "20260102" carton50
      (by decide)).2 (by decide) (by decide) (by decide)⟩

/-- With primary-key ids unique, a terminal carton is a different row
from any non-terminal target, so their ids differ. -/
lemma terminal_ne_target (items : List StockItem)
    (hnd : (items.map (fun it => it.id)).Nodup)
    (x : StockItem) (hx : x ∈ items) (hxs : ¬ terminal_status x.status)
    (i : Nat) (h : i < items.length)
    (hterm : terminal_status (items.get ⟨i, h⟩).status) :
    (items.get ⟨i, h⟩).id ≠ x.id := by
  intro heq
  have hsame : items.get ⟨i, h⟩ = x :=
    List.inj_on_of_nodup_map hnd (List.get_mem items i h) hx heq
  rw [hsame] at hterm
  exact hxs hterm

/-- Updating rows by a different id leaves the row at position i. -/
lemma map_update_getElem_preserve (items : List StockItem) (tid : Nat)
    (g : StockItem → StockItem) (i : Nat) (h : i < items.length)
    (hne : (items.get ⟨i, h⟩).id ≠ tid) :
    (items.map (fun it => if it.id = tid then g it else it))[i]? =
      some (items.get ⟨i, h⟩) := by
  rw [List.getElem?_map, List.getElem?_eq_getElem h]
  simp only [Option.map_some']
  show some (if (items.get ⟨i, h⟩).id = tid then g (items.get ⟨i, h⟩) else items.get ⟨i, h⟩)
    = some (items.get ⟨i, h⟩)
  rw [if_neg hne]

/-- A successful scan_in targeted a pending_scan row and only flipped
rows carrying its id to in_stock. -/
lemma scan_in_ok_items (db : StockDB) (b : String) (db' : StockDB)
    (h : scan_in db b = Except.ok db') :
    ∃ x, x ∈ db.items ∧ x.status = StockStatus.pending_scan ∧
      db'.items = db.items.map (fun it =>
        if it.id = x.id then { it with status := StockStatus.in_stock } else it) := by
  cases hf : db.items.find? (fun it => it.barcode_id == b) with
  | none => simp [scan_in, hf] at h
  | some x =>
    cases hst : x.status with
    | pending_scan =>
      refine ⟨x, List.mem_of_find?_eq_some hf, hst, ?_⟩
      simp [scan_in, hf, hst] at h
      rw [← h]
    | in_stock => simp [scan_in, hf, hst] at h
    | picked => simp [scan_in, hf, hst] at h
    | scrapped => simp [scan_in, hf, hst] at h
    | consumed => simp [scan_in, hf, hst] at h

/-- A successful scan_out targeted an in_stock row and only changed
rows carrying its id. -/
lemma scan_out_ok_items (db : StockDB) (b : String) (oid : Option Nat) (db' : StockDB)
    (h : scan_out db b oid = Except.ok db') :
    ∃ x, x ∈ db.items ∧ x.status = StockStatus.in_stock ∧
      db'.items = db.items.map (fun it =>
        if it.id = x.id then
          { it with
            status := StockStatus.picked,
            order_id := if oid.isSome then oid else it.order_id }
        else it) := by
  cases hf : db.items.find? (fun it => it.barcode_id == b) with
  | none => simp [scan_out, hf] at h
  | some x =>
    cases hst : x.status with
    | in_stock =>
      refine ⟨x, List.mem_of_find?_eq_some hf, hst, ?_⟩
      simp [scan_out, hf, hst] at h
      rw [← h]
    | pending_scan => simp [scan_out, hf, hst] at h
    | picked => simp [scan_out, hf, hst] at h
    | scrapped => simp [scan_out, hf, hst] at h
    | consumed => simp [scan_out, hf, hst] at h

/-- A successful adjustment targeted an in_stock row and only changed
rows carrying its id. -/
lemma adjustment_ok_items (db : StockDB) (sid : Nat) (qc : Int) (db' : StockDB)
    (h : adjustment db sid qc = Except.ok db') :
    ∃ x, x ∈ db.items ∧ x.status = StockStatus.in_stock ∧
      db'.items = db.items.map (fun it =>
        if it.id = x.id then
          { it with
            quantity := x.quantity + qc,
            status := if x.quantity + qc = 0 then StockStatus.scrapped else it.status }
        else it) := by
  cases hf : db.items.find? (fun it => it.id == sid) with
  | none => simp [adjustment, hf] at h
  | some x =>
    cases hst : x.status with
    | in_stock =>
      refine ⟨x, List.mem_of_find?_eq_some hf, hst, ?_⟩
      simp only [adjustment, hf] at h
      rw [if_neg (by simp [hst])] at h
      by_cases hneg : x.quantity + qc < 0
      · rw [if_pos hneg] at h
        cases h
      · rw [if_neg hneg] at h
        simp only [Except.ok.injEq] at h
        rw [← h]
    | pending_scan => simp [adjustment, hf, hst] at h
    | picked => simp [adjustment, hf, hst] at h
    | scrapped => simp [adjustment, hf, hst] at h
    | consumed => simp [adjustment, hf, hst] at h

/-- A successful repack targeted an in_stock row: existing positions
are only changed at rows carrying its id, a single new row is
appended. -/
lemma repack_ok_items (db : StockDB) (b : String) (t : Int) (oid : Option Nat)
    (d : String) (db' : StockDB) (h : repack db b t oid d = Except.ok db') :
    ∃ x nitem, x ∈ db.items ∧ x.status = StockStatus.in_stock ∧
      db'.items = db.items.map (fun it =>
        if it.id = x.id then
          { it with
            status := StockStatus.consumed,
            order_id := if oid.isSome then oid else it.order_id }
        else it) ++ [nitem] := by
  cases hf : db.items.find? (fun it => it.barcode_id == b) with
  | none => simp [repack, hf] at h
  | some x =>
    cases hst : x.status with
    | in_stock =>
      refine ⟨x, ⟨db.next_id,
        (generate_barcode_ids db.items x.product_code x.colour 1 d).headD "",
        x.product_code, x.colour, x.quantity - t, "partial", StockStatus.in_stock,
        none, some x.id⟩, List.mem_of_find?_eq_some hf, hst, ?_⟩
      simp only [repack, hf] at h
      rw [if_neg (by simp [hst])] at h
      by_cases h1 : t ≤ 0
      · rw [if_pos h1] at h
        cases h
      · rw [if_neg h1] at h
        by_cases h2 : x.quantity ≤ t
        · rw [if_pos h2] at h
          cases h
        · rw [if_neg h2] at h
          simp only [Except.ok.injEq] at h
          rw [← h]
    | pending_scan => simp [repack, hf, hst] at h
    | picked => simp [repack, hf, hst] at h
    | scrapped => simp [repack, hf, hst] at h
    | consumed => simp [repack, hf, hst] at h

/-- A successful complete_session leaves items alone or scraps exactly
the rows whose id belongs to a missing item. -/
lemma complete_session_ok_items (db : StockDB) (sid : Nat) (auto : Bool) (db' : StockDB)
    (h : complete_session db sid auto = Except.ok db') :
    db'.items =
      (if auto ∧ session_missing_items db sid ≠ [] then
        db.items.map (fun it =>
          if ((session_missing_items db sid).map (fun m => m.id)).contains it.id
          then { it with status := StockStatus.scrapped } else it)
      else db.items) := by
  cases hf : db.sessions.find? (fun s => s.id == sid) with
  | none => simp [complete_session, hf] at h
  | some sess =>
    by_cases hprog : sess.status = SessionStatus.in_progress
    · simp only [complete_session, hf] at h
      rw [if_neg (by simp [hprog])] at h
      simp only [Except.ok.injEq] at h
      rw [← h]
    · simp [complete_session, hf, hprog] at h

/-- Every missing item of a session is an in_stock row of the
database. -/
lemma session_missing_items_mem (db : StockDB) (sid : Nat) (m : StockItem)
    (hm : m ∈ session_missing_items db sid) :
    m ∈ db.items ∧ m.status = StockStatus.in_stock := by
  unfold session_missing_items at hm
  rw [List.mem_filter] at hm
  obtain ⟨hm1, _⟩ := hm
  rw [List.mem_filter] at hm1
  exact ⟨hm1.1, by simpa using hm1.2⟩

/-- C7: no StockItem leaves a terminal state.  An operation that
targets a picked, scrapped or consumed carton raises a domain error,
and on any successful scan_in, scan_out, adjustment, partial repack or
stocktake completion every carton that was terminal beforehand is
untouched. -/
theorem terminal_status_monotonic (db : StockDB)
    (hnd : (db.items.map (fun it => it.id)).Nodup) :
    (∀ b x, db.items.find? (fun it => it.barcode_id == b) = some x →
      terminal_status x.status →
      (∃ e, scan_in db b = Except.error e) ∧
      (∀ oid, ∃ e, scan_out db b oid = Except.error e) ∧
      (∀ t oid d, ∃ e, repack db b t oid d = Except.error e)) ∧
    (∀ sid qc x, db.items.find? (fun it => it.id == sid) = some x →
      terminal_status x.status →
      ∃ e, adjustment db sid qc = Except.error e) ∧
    (∀ i (h : i < db.items.length), terminal_status (db.items.get ⟨i, h⟩).status →
      (∀ b db', scan_in db b = Except.ok db' →
        db'.items[i]? = some (db.items.get ⟨i, h⟩)) ∧
      (∀ b oid db', scan_out db b oid = Except.ok db' →
        db'.items[i]? = some (db.items.get ⟨i, h⟩)) ∧
      (∀ sid qc db', adjustment db sid qc = Except.ok db' →
        db'.items[i]? = some (db.items.get ⟨i, h⟩)) ∧
      (∀ b t oid d db', repack db b t oid d = Except.ok db' →
        db'.items[i]? = some (db.items.get ⟨i, h⟩)) ∧
      (∀ sid auto db', complete_session db sid auto = Except.ok db' →
        db'.items[i]? = some (db.items.get ⟨i, h⟩))) := by
  refine ⟨?_, ?_, ?_⟩
  · intro b x hfx hterm
    refine ⟨?_, ?_, ?_⟩
    · rcases hterm with hs | hs | hs <;> exact ⟨_, by simp only [scan_in, hfx]; simp [hs]; rfl⟩
    · intro oid
      rcases hterm with hs | hs | hs <;> exact ⟨_, by simp only [scan_out, hfx]; simp [hs]; rfl⟩
    · intro t oid d
      rcases hterm with hs | hs | hs <;> exact ⟨_, by simp only [repack, hfx]; simp [hs]; rfl⟩
  · intro sid qc x hfx hterm
    rcases hterm with hs | hs | hs <;> exact ⟨_, by simp only [adjustment, hfx]; simp [hs]; rfl⟩
  · intro i h hterm
    refine ⟨?_, ?_, ?_, ?_, ?_⟩
    · intro b db' hok
      obtain ⟨x, hx, hxs, hitems⟩ := scan_in_ok_items db b db' hok
      rw [hitems]
      exact map_update_getElem_preserve _ _ _ i h
        (terminal_ne_target db.items hnd x hx (by simp [terminal_status, hxs]) i h hterm)
    · intro b oid db' hok
      obtain ⟨x, hx, hxs, hitems⟩ := scan_out_ok_items db b oid db' hok
      rw [hitems]
      exact map_update_getElem_preserve _ _ _ i h
        (terminal_ne_target db.items hnd x hx (by simp [terminal_status, hxs]) i h hterm)
    · intro sid qc db' hok
      obtain ⟨x, hx, hxs, hitems⟩ := adjustment_ok_items db sid qc db' hok
      rw [hitems]
      exact map_update_getElem_preserve _ _ _ i h
        (terminal_ne_target db.items hnd x hx (by simp [terminal_status, hxs]) i h hterm)
    · intro b t oid d db' hok
      obtain ⟨x, nitem, hx, hxs, hitems⟩ := repack_ok_items db b t oid d db' hok
      rw [hitems]
      rw [List.getElem?_append_left (by simpa using h)]
      exact map_update_getElem_preserve _ _ _ i h
        (terminal_ne_target db.items hnd x hx (by simp [terminal_status, hxs]) i h hterm)
    · intro sid auto db' hok
      rw [complete_session_ok_items db sid auto db' hok]
      by_cases hc : auto = true ∧ session_missing_items db sid ≠ []
      · rw [if_pos hc]
        have hnotin : ¬ (((session_missing_items db sid).map (fun m => m.id)).contains
            (db.items.get ⟨i, h⟩).id = true) := by
          intro hcon
          rw [List.contains_eq_any_beq, List.any_eq_true] at hcon
          obtain ⟨mid, hmid, hbeq⟩ := hcon
          rw [List.mem_map] at hmid
          obtain ⟨m, hm, hmid2⟩ := hmid
          obtain ⟨hmmem, hmstock⟩ := session_missing_items_mem db sid m hm
          have hideq : (db.items.get ⟨i, h⟩).id = m.id := by
            rw [← hmid2] at hbeq
            simpa using hbeq
          have hsame : db.items.get ⟨i, h⟩ = m :=
            List.inj_on_of_nodup_map hnd (List.get_mem db.items i h) hmmem hideq
          rw [hsame, hmstock] at hterm
          rcases hterm with hs | hs | hs <;> cases hs
        rw [List.getElem?_map, List.getElem?_eq_getElem h]
        simp only [Option.map_some']
        show some (if ((session_missing_items db sid).map (fun m => m.id)).contains
            (db.items.get ⟨i, h⟩).id = true
          then { db.items.get ⟨i, h⟩ with status := StockStatus.scrapped }
          else db.items.get ⟨i, h⟩) = some (db.items.get ⟨i, h⟩)
        rw [if_neg hnotin]
      · rw [if_neg hc, List.getElem?_eq_getElem h]
        rfl

/-- Membership in the found-barcode set of a session is existence of a
found-classified scan of that barcode in the session. -/
lemma contains_found_iff (db : StockDB) (sid : Nat) (x : String) :
    (session_found_barcodes db sid).contains x = true ↔
      ∃ sc ∈ db.scans, sc.session_id = sid ∧ sc.scan_result = ScanResult.found ∧
        sc.barcode_scanned = x := by
  unfold session_found_barcodes
  rw [List.contains_eq_any_beq, List.any_eq_true]
  constructor
  · rintro ⟨y, hy, hbeq⟩
    rw [List.mem_map] at hy
    obtain ⟨sc, hsc, hy2⟩ := hy
    rw [List.mem_filter] at hsc
    have hcond := hsc.2
    simp only [decide_eq_true_eq] at hcond
    have hxy : x = y := by simpa using hbeq
    exact ⟨sc, hsc.1, hcond.1, hcond.2, by rw [hy2, ← hxy]⟩
  · rintro ⟨sc, hsc, h1, h2, h3⟩
    refine ⟨sc.barcode_scanned, ?_, by simp [h3]⟩
    rw [List.mem_map]
    refine ⟨sc, ?_, rfl⟩
    rw [List.mem_filter]
    exact ⟨hsc, by simp [h1, h2]⟩

/-- The code's missing-item list is exactly the filter of the items by
the spec-side missing condition. -/
lemma session_missing_items_eq (db : StockDB) (sid : Nat) :
    session_missing_items db sid =
      db.items.filter (fun it => missing_in_session db.scans sid it) := by
  unfold session_missing_items
  rw [List.filter_filter]
  apply List.filter_congr
  intro a _
  by_cases h1 : a.status = StockStatus.in_stock
  · by_cases h2 : (session_found_barcodes db sid).contains a.barcode_id = true
    · have hex := (contains_found_iff db sid a.barcode_id).mp h2
      have hmiss : ¬ missing_in_session db.scans sid a := by
        intro hcon
        obtain ⟨sc, hsc, hc1, hc2, hc3⟩ := hex
        exact hcon.2 sc hsc ⟨hc1, hc2, hc3⟩
      have hmem : a.barcode_id ∈ session_found_barcodes db sid := by simpa using h2
      simp [h1, hmiss, hmem]
    · have hmiss : missing_in_session db.scans sid a := by
        refine ⟨h1, ?_⟩
        intro sc hsc hcon
        exact h2 ((contains_found_iff db sid a.barcode_id).mpr
          ⟨sc, hsc, hcon.1, hcon.2.1, hcon.2.2⟩)
      have hnmem : a.barcode_id ∉ session_found_barcodes db sid := by simpa using h2
      simp [h1, hmiss, hnmem]
  · have hmiss : ¬ missing_in_session db.scans sid a := fun hcon => h1 hcon.1
    simp [h1, hmiss]

/-- C8: complete_session counts missing as the in_stock cartons with
no found scan in the session and unexpected as the session's
not_in_system or wrong_status scans, records
total_discrepancies = missing + unexpected on the completed session,
scraps every missing carton with a -quantity adjustment movement
tagged to the session when auto_adjust is set, and leaves every
found-scanned carton unchanged. -/
theorem complete_session_spec (db : StockDB) (sid : Nat) (auto : Bool)
    (session : StocktakeSession)
    (hs : db.sessions.find? (fun s => s.id == sid) = some session)
    (hprog : session.status = SessionStatus.in_progress)
    (hnd : (db.items.map (fun it => it.id)).Nodup) :
    ∃ db', complete_session db sid auto = Except.ok db' ∧
      (∀ s' ∈ db'.sessions, s'.id = sid →
        s'.status = SessionStatus.completed ∧
        s'.total_discrepancies =
          (db.items.filter (fun it => missing_in_session db.scans sid it)).length +
            session_unexpected_count db sid) ∧
      (auto = true →
        ∀ i (h : i < db.items.length), missing_in_session db.scans sid (db.items.get ⟨i, h⟩) →
          db'.items[i]? = some { db.items.get ⟨i, h⟩ with status := StockStatus.scrapped } ∧
          (⟨(db.items.get ⟨i, h⟩).id, "adjustment", -(db.items.get ⟨i, h⟩).quantity, none,
            some sid⟩ : StockMovement) ∈ db'.movements) ∧
      (∀ i (h : i < db.items.length),
        (db.items.get ⟨i, h⟩).status = StockStatus.in_stock →
        ¬ missing_in_session db.scans sid (db.items.get ⟨i, h⟩) →
        db'.items[i]? = some (db.items.get ⟨i, h⟩)) := by
  refine ⟨⟨(if auto = true ∧ session_missing_items db sid ≠ [] then
      db.items.map (fun it =>
        if ((session_missing_items db sid).map (fun m => m.id)).contains it.id
        then { it with status := StockStatus.scrapped } else it)
    else db.items),
    db.movements ++
      (if auto = true ∧ session_missing_items db sid ≠ [] then
        (session_missing_items db sid).map (fun it =>
          (⟨it.id, "adjustment", -it.quantity, none, some sid⟩ : StockMovement))
      else []),
    db.scans,
    db.sessions.map (fun s =>
      if s.id = sid then
        { s with
          status := SessionStatus.completed,
          total_discrepancies :=
            (session_missing_items db sid).length + session_unexpected_count db sid }
      else s),
    db.next_id⟩, ?_, ?_, ?_, ?_⟩
  · simp only [complete_session, hs]
    rw [if_neg (by simp [hprog])]
  · intro s' hmem hid
    simp only [List.mem_map] at hmem
    obtain ⟨s0, hs0, hupd⟩ := hmem
    by_cases h0 : s0.id = sid
    · rw [if_pos h0] at hupd
      rw [← hupd]
      exact ⟨rfl, by rw [session_missing_items_eq]⟩
    · rw [if_neg h0] at hupd
      rw [← hupd] at hid
      exact absurd hid h0
  · intro hauto i h hmiss
    have hmem : db.items.get ⟨i, h⟩ ∈ session_missing_items db sid := by
      rw [session_missing_items_eq, List.mem_filter]
      exact ⟨List.get_mem db.items i h, by simpa using hmiss⟩
    have hne : session_missing_items db sid ≠ [] := List.ne_nil_of_mem hmem
    have hcond : auto = true ∧ session_missing_items db sid ≠ [] := ⟨hauto, hne⟩
    constructor
    · show (if auto = true ∧ session_missing_items db sid ≠ [] then
          db.items.map (fun it =>
            if ((session_missing_items db sid).map (fun m => m.id)).contains it.id
            then { it with status := StockStatus.scrapped } else it)
        else db.items)[i]? = _
      rw [if_pos hcond, List.getElem?_map, List.getElem?_eq_getElem h]
      simp only [Option.map_some']
      show some (if ((session_missing_items db sid).map (fun m => m.id)).contains
          (db.items.get ⟨i, h⟩).id = true
        then { db.items.get ⟨i, h⟩ with status := StockStatus.scrapped }
        else db.items.get ⟨i, h⟩) = _
      rw [if_pos (by
        rw [List.contains_eq_any_beq, List.any_eq_true]
        exact ⟨(db.items.get ⟨i, h⟩).id,
          List.mem_map.mpr ⟨db.items.get ⟨i, h⟩, hmem, rfl⟩, by simp⟩)]
    · show _ ∈ db.movements ++
        (if auto = true ∧ session_missing_items db sid ≠ [] then
          (session_missing_items db sid).map (fun it =>
            (⟨it.id, "adjustment", -it.quantity, none, some sid⟩ : StockMovement))
        else [])
      rw [if_pos hcond]
      exact List.mem_append_right _ (List.mem_map.mpr ⟨db.items.get ⟨i, h⟩, hmem, rfl⟩)
  · intro i h hstock hnmiss
    show (if auto = true ∧ session_missing_items db sid ≠ [] then
        db.items.map (fun it =>
          if ((session_missing_items db sid).map (fun m => m.id)).contains it.id
          then { it with status := StockStatus.scrapped } else it)
      else db.items)[i]? = _
    by_cases hcond : auto = true ∧ session_missing_items db sid ≠ []
    · rw [if_pos hcond, List.getElem?_map, List.getElem?_eq_getElem h]
      simp only [Option.map_some']
      show some (if ((session_missing_items db sid).map (fun m => m.id)).contains
          (db.items.get ⟨i, h⟩).id = true
        then { db.items.get ⟨i, h⟩ with status := StockStatus.scrapped }
        else db.items.get ⟨i, h⟩) = _
      rw [if_neg (by
        intro hcon
        rw [List.contains_eq_any_beq, List.any_eq_true] at hcon
        obtain ⟨mid, hmid, hbeq⟩ := hcon
        rw [List.mem_map] at hmid
        obtain ⟨m, hm, hmid2⟩ := hmid
        have hmm := hm
        rw [session_missing_items_eq, List.mem_filter] at hmm
        have hideq : (db.items.get ⟨i, h⟩).id = m.id := by
          rw [← hmid2] at hbeq
          simpa using hbeq
        have hsame : db.items.get ⟨i, h⟩ = m :=
          List.inj_on_of_nodup_map hnd (List.get_mem db.items i h) hmm.1 hideq
        apply hnmiss
        rw [hsame]
        simpa using hmm.2)]
    · rw [if_neg hcond, List.getElem?_eq_getElem h]
      rfl

/-- C8 witness: completing the witness session with auto_adjust scraps
the unscanned carton with a -10 movement, records 2 discrepancies
(1 missing + 1 unexpected), and leaves the found carton unchanged. -/
theorem complete_session_spec_witness :
    (db_take.sessions.find? (fun s => s.id == 5) = some take_session ∧
      take_session.status = SessionStatus.in_progress ∧
      (db_take.items.map (fun it => it.id)).Nodup) ∧
    ∃ db', complete_session db_take 5 true = Except.ok db' ∧
      (∀ s' ∈ db'.sessions, s'.id = 5 →
        s'.status = SessionStatus.completed ∧
        s'.total_discrepancies =
          (db_take.items.filter (fun it => missing_in_session db_take.scans 5 it)).length +
            session_unexpected_count db_take 5) ∧
      (true = true →
        ∀ i (h : i < db_take.items.length),
          missing_in_session db_take.scans 5 (db_take.items.get ⟨i, h⟩) →
          db'.items[i]? = some { db_take.items.get ⟨i, h⟩ with status := StockStatus.scrapped } ∧
          (⟨(db_take.items.get ⟨i, h⟩).id, "adjustment", -(db_take.items.get ⟨i, h⟩).quantity,
            none, some 5⟩ : StockMovement) ∈ db'.movements) ∧
      (∀ i (h : i < db_take.items.length),
        (db_take.items.get ⟨i, h⟩).status = StockStatus.in_stock →
        ¬ missing_in_session db_take.scans 5 (db_take.items.get ⟨i, h⟩) →
        db'.items[i]? = some (db_take.items.get ⟨i, h⟩)) :=
  ⟨⟨by decide, by decide, by decide⟩,
    complete_session_spec db_take 5 true take_session (by decide) (by decide) (by decide)⟩

/-- C7 witness: in db_terminal, scanning the picked carton in again
errors, and a successful scan-out of the other carton leaves the
picked carton untouched. -/
theorem terminal_status_monotonic_witness :
    (∃ e, scan_in db_terminal "RJ-A-BLK-20260101-009" = Except.error e) ∧
    (∀ db', scan_out db_terminal "RJ-A-BLK-20260101-001" none = Except.ok db' →
      db'.items[0]? = some (db_terminal.items.get ⟨0, by decide⟩)) :=
  ⟨((terminal_status_monotonic db_terminal (by decide)).1 "RJ-A-BLK-20260101-009"
      carton_picked (by decide) (by decide)).1,
    fun db' hok =>
      ((terminal_status_monotonic db_terminal (by decide)).2.2 0 (by decide)
        (by decide)).2.1 "RJ-A-BLK-20260101-001" none db' hok⟩

end Ramjet
